import Mathlib

/-!
Shallow embedding of the MAIK contract generator (openai-client.ts,
contract-processor.ts, cli.ts, types.ts).

The chat-completion provider is modelled as a pure oracle
`Provider : List Message → ModelConfig → ProviderResult`; the filesystem as
`FileSystem : String → Option String` (path → file content); every outbound
chat-completion request is recorded in an explicit `Trace` threaded through
the functions, so that statements about which network calls a run makes are
expressible.  Fallible operations return `Except String`, mirroring thrown
`Error`s.  User feedback collected between stages is supplied through the
environment (`Env.feedback1` .. `Env.feedback5`), standing for the values
returned by `getUserInput` at the five pause points.
-/

namespace Maik

/-- Message role, from the literal union type in `chatCompletion`. -/
inductive Role where
  | system
  | user
  | assistant
deriving DecidableEq, Repr

/-- A role-tagged chat message `\x7b role, content \x7d`. -/
structure Message where
  role : Role
  content : String
deriving DecidableEq, Repr

/-- `ModelConfig` from types.ts.  The sampling temperature is carried as an
exact rational (the source only ever passes the literal 0.7 through,
unmodified, so no floating-point arithmetic is involved). -/
structure ModelConfig where
  model : String
  temperature : ℚ
  maxTokens : Nat
deriving DecidableEq, Repr

/-- `Partial ModelConfig` — the optional per-call configuration override
accepted by `chatCompletion` (absent fields take the defaults). -/
structure ConfigOverride where
  model : Option String := none
  temperature : Option ℚ := none
  maxTokens : Option Nat := none
deriving DecidableEq, Repr

/-- Outcome of one remote chat-completion call: either a response whose first
choice carries optional content (`response.choices[0]?.message?.content`),
or a thrown provider error with a message string. -/
inductive ProviderResult where
  | success (content : Option String)
  | failure (message : String)
deriving DecidableEq, Repr

/-- The remote provider as a pure oracle: messages and resolved configuration
in, result out. -/
abbrev Provider := List Message → ModelConfig → ProviderResult

/-- One outbound request as put on the wire by `chatCompletion`. -/
structure GenRequest where
  messages : List Message
  config : ModelConfig
deriving DecidableEq, Repr

/-- The ordered record of outbound requests made so far in a run. -/
abbrev Trace := List GenRequest

/-- The defaults from `chatCompletion`: model "gpt-4", temperature 0.7,
4000 max tokens. -/
def defaultModelConfig : ModelConfig :=
  { model := "gpt-4", temperature := 7/10, maxTokens := 4000 }

/-- `\x7b model: 'gpt-4', temperature: 0.7, maxTokens: 4000, ...config \x7d`:
the override's present fields win over the defaults. -/
def resolveConfig (config : ConfigOverride) : ModelConfig :=
  { model := config.model.getD "gpt-4",
    temperature := config.temperature.getD (7/10),
    maxTokens := config.maxTokens.getD 4000 }

/-- `OpenAIClient.chatCompletion`: resolves the configuration, makes the
remote call (recorded on the trace), returns the first choice's content with
`|| ''` defaulting, and wraps any provider error as
`OpenAI API error: <cause>`. -/
def chatCompletion (provider : Provider) (messages : List Message)
    (config : ConfigOverride) (t : Trace) : Except String String × Trace :=
  match provider messages (resolveConfig config) with
  | .success content =>
      (.ok (content.getD ""), t ++ [⟨messages, resolveConfig config⟩])
  | .failure e =>
      (.error ("OpenAI API error: " ++ e),
        t ++ [⟨messages, resolveConfig config⟩])

/-- `OpenAIClient.generateContractStep`: assembles
`[system] ++ history ++ [new user message]` and calls `chatCompletion`
with no configuration override. -/
def generateContractStep (provider : Provider)
    (systemPrompt userMessage : String) (conversationHistory : List Message)
    (t : Trace) : Except String String × Trace :=
  chatCompletion provider
    (⟨.system, systemPrompt⟩ :: (conversationHistory ++ [⟨.user, userMessage⟩]))
    {} t

/-- `ContractSession` from types.ts. -/
structure Session where
  userPrompt : String
  conversationHistory : List Message
  contractDraft : Option String := none
  finalContract : Option String := none
deriving DecidableEq, Repr

/-- `ProcessConfig` from types.ts. -/
structure ProcessConfig where
  apiKey : String
  directory : String
  userPrompt : String
  outputFile : Option String := none
deriving DecidableEq, Repr

/-- The session as initialised by the `ContractProcessor` constructor. -/
def initialSession (cfg : ProcessConfig) : Session :=
  { userPrompt := cfg.userPrompt, conversationHistory := [] }

/-- `ContractProcessor.executeStep`: calls `generateContractStep` with the
session's history and, on success, pushes the (user message, assistant
response) pair onto the conversation history; a failure is rethrown. -/
def executeStep (provider : Provider) (s : Session)
    (systemPrompt userMessage : String) (t : Trace) :
    Except String (String × Session) × Trace :=
  match generateContractStep provider systemPrompt userMessage
      s.conversationHistory t with
  | (.ok response, t') =>
      (.ok (response,
        { s with conversationHistory :=
            s.conversationHistory ++
              [⟨.user, userMessage⟩, ⟨.assistant, response⟩] }), t')
  | (.error e, t') => (.error e, t')

/-- The filesystem as a partial map from paths to contents (`existsSync` +
`readFileSync`). -/
abbrev FileSystem := String → Option String

/-- `join(directory, filename)` from node:path, on the straight-line paths
the program builds. -/
def pathJoin (dir filename : String) : String := dir ++ "/" ++ filename

/-- Whitespace test used by the trim model: space, tab, line feed, carriage
return — the whitespace characters relevant to this program's inputs. -/
def isTrimWS (c : Char) : Bool :=
  c = ' ' || c = '\t' || c = '\n' || c = '\r'

/-- Model of the JS `String.prototype.trim()` used throughout the source:
drop whitespace from both ends (structurally recursive, so it evaluates). -/
def strTrim (s : String) : String :=
  ⟨((s.data.dropWhile isTrimWS).reverse.dropWhile isTrimWS).reverse⟩

/-- `ContractProcessor.loadPromptFile`: throws
`Prompt file not found: <path>` when the file is absent, otherwise reads and
trims it. -/
def loadPromptFile (fs : FileSystem) (directory filename : String) :
    Except String String :=
  match fs (pathJoin directory filename) with
  | none => .error ("Prompt file not found: " ++ pathJoin directory filename)
  | some content => .ok (strTrim content)

/-- The ambient effects of one `processContract` run: the filesystem, the
provider, and the five user-feedback answers collected at the pause points
(`userInput1` .. `userInput5` in the source). -/
structure Env where
  fs : FileSystem
  provider : Provider
  feedback1 : String
  feedback2 : String
  feedback3 : String
  feedback4 : String
  feedback5 : String

/-- Step 1 of `processContract` (Intake): load `intake.txt`, run the stage on
the fresh session with the raw user prompt as the user message. -/
def afterIntake (env : Env) (cfg : ProcessConfig) (t : Trace) :
    Except String (String × Session) × Trace :=
  match loadPromptFile env.fs cfg.directory "intake.txt" with
  | .error e => (.error e, t)
  | .ok intakePrompt =>
      executeStep env.provider (initialSession cfg) intakePrompt
        cfg.userPrompt t

/-- Steps 1–2 of `processContract` (through Confirm): load
`confirm_specs.txt` and run the stage on the labelled concatenation of the
user request, the intake response and the first feedback answer. -/
def afterConfirm (env : Env) (cfg : ProcessConfig) (t : Trace) :
    Except String (String × Session) × Trace :=
  match afterIntake env cfg t with
  | (.error e, t1) => (.error e, t1)
  | (.ok (intakeResponse, s1), t1) =>
      match loadPromptFile env.fs cfg.directory "confirm_specs.txt" with
      | .error e => (.error e, t1)
      | .ok confirmPrompt =>
          executeStep env.provider s1 confirmPrompt
            ("User Request: " ++ cfg.userPrompt ++
              "\n\nIntake Information: " ++ intakeResponse ++
              "\n\nAdditional Details: " ++ env.feedback1) t1

/-- Steps 1–3 of `processContract` (through Draft): load `draft.txt`, run the
stage, and record the response as the session's contract draft. -/
def afterDraft (env : Env) (cfg : ProcessConfig) (t : Trace) :
    Except String (String × Session) × Trace :=
  match afterConfirm env cfg t with
  | (.error e, t2) => (.error e, t2)
  | (.ok (confirmResponse, s2), t2) =>
      match loadPromptFile env.fs cfg.directory "draft.txt" with
      | .error e => (.error e, t2)
      | .ok draftPrompt =>
          match executeStep env.provider s2 draftPrompt
              ("User Request: " ++ cfg.userPrompt ++
                "\n\nConfirmed Specifications: " ++ confirmResponse ++
                "\n\nUser Confirmation: " ++ env.feedback2) t2 with
          | (.error e, t3) => (.error e, t3)
          | (.ok (draftResponse, s3), t3) =>
              (.ok (draftResponse,
                { s3 with contractDraft := some draftResponse }), t3)

/-- Steps 1–4 of `processContract` (through Verify): load `verify.txt` and run
the stage on the user request, the draft and the third feedback answer; the
draft response is carried along for the later stages. -/
def afterVerify (env : Env) (cfg : ProcessConfig) (t : Trace) :
    Except String (String × String × Session) × Trace :=
  match afterDraft env cfg t with
  | (.error e, t3) => (.error e, t3)
  | (.ok (draftResponse, s3), t3) =>
      match loadPromptFile env.fs cfg.directory "verify.txt" with
      | .error e => (.error e, t3)
      | .ok verifyPrompt =>
          match executeStep env.provider s3 verifyPrompt
              ("User Request: " ++ cfg.userPrompt ++
                "\n\nContract Draft: " ++ draftResponse ++
                "\n\nUser Feedback: " ++ env.feedback3) t3 with
          | (.error e, t4) => (.error e, t4)
          | (.ok (verifyResponse, s4), t4) =>
              (.ok (draftResponse, verifyResponse, s4), t4)

/-- Steps 1–5 of `processContract` (through Explain): load `explain.txt` and
run the stage on the user request, the draft response (labelled
`Final Contract`), the verify response and the fourth feedback answer; the
draft and verify responses are carried along for the synthesis call. -/
def afterExplain (env : Env) (cfg : ProcessConfig) (t : Trace) :
    Except String (String × String × Session) × Trace :=
  match afterVerify env cfg t with
  | (.error e, t4) => (.error e, t4)
  | (.ok (draftResponse, verifyResponse, s4), t4) =>
      match loadPromptFile env.fs cfg.directory "explain.txt" with
      | .error e => (.error e, t4)
      | .ok explainPrompt =>
          match executeStep env.provider s4 explainPrompt
              ("User Request: " ++ cfg.userPrompt ++
                "\n\nFinal Contract: " ++ draftResponse ++
                "\n\nVerification Notes: " ++ verifyResponse ++
                "\n\nFinal Adjustments: " ++ env.feedback4) t4 with
          | (.error e, t5) => (.error e, t5)
          | (.ok (_explainResponse, s5), t5) =>
              (.ok (draftResponse, verifyResponse, s5), t5)

/-- The standalone synthesis system prompt built by
`generateFinalContract` from the draft, the verification feedback and the two
final feedback answers. -/
def finalPrompt (draft verification userAdjustments userExplanation : String) :
    String :=
  "You are a legal expert specializing in German freelance contracts. Based on the contract draft, verification feedback, and user input, generate the final improved contract.\n\nContract Draft:\n"
    ++ draft ++ "\n\nVerification Feedback:\n" ++ verification ++
    "\n\nUser Adjustments:\n" ++ userAdjustments ++
    "\n\nUser Explanation Notes:\n" ++ userExplanation ++
    "\n\nPlease generate the final German freelance contract incorporating all necessary improvements from the verification feedback and user input. The contract should be well-structured, legally sound for German jurisdiction, and ready for use."

/-- `ContractProcessor.generateFinalContract`: one more
`generateContractStep` call with the synthesis prompt, the fixed user message
and the accumulated history; the session is read, never written. -/
def generateFinalContract (provider : Provider) (s : Session)
    (draft verification userAdjustments userExplanation : String) (t : Trace) :
    Except String String × Trace :=
  generateContractStep provider
    (finalPrompt draft verification userAdjustments userExplanation)
    "Generate the final German freelance contract"
    s.conversationHistory t

/-- `ContractProcessor.processContract`: the five stages, then the synthesis
call whose output is stored as the session's final contract (and not appended
to the history). -/
def processContract (env : Env) (cfg : ProcessConfig) (t : Trace) :
    Except String (String × Session) × Trace :=
  match afterExplain env cfg t with
  | (.error e, t5) => (.error e, t5)
  | (.ok (draftResponse, verifyResponse, s5), t5) =>
      match generateFinalContract env.provider s5 draftResponse verifyResponse
          env.feedback4 env.feedback5 t5 with
      | (.error e, t6) => (.error e, t6)
      | (.ok finalContract, t6) =>
          (.ok (finalContract, { s5 with finalContract := some finalContract }),
            t6)

/-- API-key resolution from `getConfiguration` and
`getInteractiveConfiguration` (both subcommands use the identical logic):
`options.apiKey` if truthy, else the environment variable if set and
non-blank after trimming, else the masked interactive answer.  `none` stands
for an absent flag / unset variable; a supplied empty string is falsy in the
source (`if (!apiKey)`), hence falls through. -/
def resolveApiKey (flagKey envKey : Option String) (prompted : String) :
    String :=
  if flagKey.getD "" = "" then
    if strTrim (envKey.getD "") = "" then prompted else envKey.getD ""
  else flagKey.getD ""

/-- The project-description `validate` callback shared verbatim by
`getConfiguration` and `getInteractiveConfiguration`: accept exactly when the
trimmed input has at least 10 characters. -/
def descriptionValidate (input : String) : Bool :=
  if (strTrim input).length < 10 then false else true

/-- Modelled from the spec: the interactive prompt loop around a `validate`
callback (inquirer's behaviour, which is not part of this repository's
sources) — rejected input re-prompts, so the accepted answer is the first
submitted input that validates. -/
def promptUntilValid (validate : String → Bool) : List String → Option String
  | [] => none
  | i :: rest => if validate i then some i else promptUntilValid validate rest

/-- Truth of the `ok` constructor, for stating success-conditioned facts. -/
def isOkE {α : Type} : Except String α → Bool
  | .ok _ => true
  | .error _ => false

/-- Truth of the `failure` constructor of a provider result. -/
def ProviderResult.isFailure : ProviderResult → Bool
  | .failure _ => true
  | .success _ => false

/-- Placeholder session used by the extractors below on the error branch. -/
def defaultSession : Session := { userPrompt := "", conversationHistory := [] }

/-- Response component of a successful stage result. -/
def okStr : Except String (String × Session) → String
  | .ok p => p.1
  | .error _ => ""

/-- Session component of a successful stage result. -/
def okSession : Except String (String × Session) → Session
  | .ok p => p.2
  | .error _ => defaultSession

/-- Draft component of a successful Verify/Explain-stage result. -/
def okDraft : Except String (String × String × Session) → String
  | .ok p => p.1
  | .error _ => ""

/-- Verify-response component of a successful Verify/Explain-stage result. -/
def okVerify : Except String (String × String × Session) → String
  | .ok p => p.2.1
  | .error _ => ""

/-- Session component of a successful Verify/Explain-stage result. -/
def okSession3 : Except String (String × String × Session) → Session
  | .ok p => p.2.2
  | .error _ => defaultSession

/-- Loaded text of a successful prompt-file read. -/
def okPrompt : Except String String → String
  | .ok s => s
  | .error _ => ""

/-- A provider stub answering every call with the fixed text "RESP". -/
def testProvider : Provider := fun _ _ => .success (some "RESP")

/-- A filesystem stub on which every path holds the text "TPL". -/
def testFs : FileSystem := fun _ => some "TPL"

/-- A concrete run environment for evaluating the pipeline. -/
def testEnv : Env :=
  { fs := testFs, provider := testProvider, feedback1 := "F1",
    feedback2 := "F2", feedback3 := "F3", feedback4 := "F4",
    feedback5 := "F5" }

/-- A concrete process configuration for evaluating the pipeline. -/
def testCfg : ProcessConfig :=
  { apiKey := "K", directory := "D", userPrompt := "P" }

/-- A filesystem stub identical to `testFs` except that one named template
file is missing from directory "D". -/
def missingFs (fn : String) : FileSystem :=
  fun p => if p = pathJoin "D" fn then none else some "TPL"

/-- The test environment with one template file removed. -/
def missingEnv (fn : String) : Env := { testEnv with fs := missingFs fn }

/-- The test environment with an empty template directory. -/
def noFsEnv : Env := { testEnv with fs := fun _ => none }

/-- A provider stub failing every call with cause "boom". -/
def failProvider : Provider := fun _ _ => .failure "boom"

/-- Every request put on the trace carries the default model configuration. -/
def allDefaultConfig (t : Trace) : Prop :=
  ∀ req ∈ t, req.config = defaultModelConfig

/-- An empty override resolves to the defaults. -/
theorem resolveConfig_empty : resolveConfig {} = defaultModelConfig := rfl

/-- Every `chatCompletion` call appends exactly one request, carrying the
resolved configuration, to the trace. -/
theorem chatCompletion_trace (provider : Provider) (msgs : List Message)
    (c : ConfigOverride) (t : Trace) :
    (chatCompletion provider msgs c t).2 = t ++ [⟨msgs, resolveConfig c⟩] := by
  unfold chatCompletion
  cases provider msgs (resolveConfig c) <;> rfl

/-- Characterisation of a successful `executeStep`: the new session appends
exactly the user/assistant pair, and the trace grows by the one
default-configured request `[system] ++ history ++ [user]`. -/
theorem executeStep_ok {provider : Provider} {s : Session} {sp um : String}
    {t : Trace} {r : String} {s' : Session} {t' : Trace}
    (h : executeStep provider s sp um t = (.ok (r, s'), t')) :
    s' = { s with conversationHistory :=
        s.conversationHistory ++ [⟨.user, um⟩, ⟨.assistant, r⟩] } ∧
    t' = t ++ [⟨⟨.system, sp⟩ :: (s.conversationHistory ++ [⟨.user, um⟩]),
        defaultModelConfig⟩] := by
  unfold executeStep generateContractStep chatCompletion at h
  rw [resolveConfig_empty] at h
  cases hp : provider
      (⟨Role.system, sp⟩ :: (s.conversationHistory ++ [⟨Role.user, um⟩]))
      defaultModelConfig with
  | success content =>
      rw [hp] at h
      simp only [Prod.mk.injEq, Except.ok.injEq] at h
      obtain ⟨⟨h1, h2⟩, h3⟩ := h
      subst h1
      exact ⟨h2.symm, h3.symm⟩
  | failure e =>
      rw [hp] at h
      simp at h

/-- The trace of any `executeStep` (successful or not) is the incoming trace
plus the one request it makes. -/
theorem executeStep_trace (provider : Provider) (s : Session) (sp um : String)
    (t : Trace) :
    (executeStep provider s sp um t).2 =
      t ++ [⟨⟨.system, sp⟩ :: (s.conversationHistory ++ [⟨.user, um⟩]),
        defaultModelConfig⟩] := by
  unfold executeStep generateContractStep chatCompletion
  rw [resolveConfig_empty]
  cases provider
      (⟨Role.system, sp⟩ :: (s.conversationHistory ++ [⟨Role.user, um⟩]))
      defaultModelConfig <;> rfl

/-- A successful Intake stage leaves a two-entry history: the raw prompt and
the stage response. -/
theorem afterIntake_ok {env : Env} {cfg : ProcessConfig} {t : Trace}
    {r : String} {s : Session} {t' : Trace}
    (h : afterIntake env cfg t = (.ok (r, s), t')) :
    s = { userPrompt := cfg.userPrompt,
          conversationHistory :=
            [⟨.user, cfg.userPrompt⟩, ⟨.assistant, r⟩] } := by
  unfold afterIntake at h
  cases hl : loadPromptFile env.fs cfg.directory "intake.txt" with
  | error e => rw [hl] at h; simp at h
  | ok p =>
      rw [hl] at h
      have := (executeStep_ok h).1
      simpa [initialSession] using this

/-- A successful Confirm stage appends one user/assistant pair to the Intake
session's history. -/
theorem afterConfirm_ok {env : Env} {cfg : ProcessConfig} {t : Trace}
    {r : String} {s : Session} {t' : Trace}
    (h : afterConfirm env cfg t = (.ok (r, s), t')) :
    ∃ r1 s1 t1, afterIntake env cfg t = (.ok (r1, s1), t1) ∧
      s.conversationHistory = s1.conversationHistory ++
        [⟨.user, "User Request: " ++ cfg.userPrompt ++
            "\n\nIntake Information: " ++ r1 ++
            "\n\nAdditional Details: " ++ env.feedback1⟩,
          ⟨.assistant, r⟩] := by
  unfold afterConfirm at h
  cases h1 : afterIntake env cfg t with
  | mk e1 t1 =>
      rw [h1] at h
      cases e1 with
      | error e => simp at h
      | ok p =>
          obtain ⟨r1, s1⟩ := p
          cases hl : loadPromptFile env.fs cfg.directory "confirm_specs.txt" with
          | error e => rw [hl] at h; simp at h
          | ok cp =>
              rw [hl] at h
              refine ⟨r1, s1, t1, rfl, ?_⟩
              have := (executeStep_ok h).1
              rw [this]

/-- A successful Draft stage appends one user/assistant pair to the Confirm
session's history and records the response as the contract draft. -/
theorem afterDraft_ok {env : Env} {cfg : ProcessConfig} {t : Trace}
    {r : String} {s : Session} {t' : Trace}
    (h : afterDraft env cfg t = (.ok (r, s), t')) :
    ∃ r2 s2 t2, afterConfirm env cfg t = (.ok (r2, s2), t2) ∧
      s.conversationHistory = s2.conversationHistory ++
        [⟨.user, "User Request: " ++ cfg.userPrompt ++
            "\n\nConfirmed Specifications: " ++ r2 ++
            "\n\nUser Confirmation: " ++ env.feedback2⟩,
          ⟨.assistant, r⟩] ∧
      s.contractDraft = some r := by
  unfold afterDraft at h
  cases h2 : afterConfirm env cfg t with
  | mk e2 t2 =>
      rw [h2] at h
      cases e2 with
      | error e => simp at h
      | ok p =>
          obtain ⟨r2, s2⟩ := p
          cases hl : loadPromptFile env.fs cfg.directory "draft.txt" with
          | error e => rw [hl] at h; simp at h
          | ok dp =>
              rw [hl] at h
              dsimp only at h
              cases hx : executeStep env.provider s2 dp
                  ("User Request: " ++ cfg.userPrompt ++
                    "\n\nConfirmed Specifications: " ++ r2 ++
                    "\n\nUser Confirmation: " ++ env.feedback2) t2 with
              | mk e3 t3 =>
                  rw [hx] at h
                  cases e3 with
                  | error e => simp at h
                  | ok q =>
                      obtain ⟨dr, s3⟩ := q
                      simp only [Prod.mk.injEq, Except.ok.injEq] at h
                      obtain ⟨⟨hdr, hs⟩, ht⟩ := h
                      subst hdr
                      refine ⟨r2, s2, t2, rfl, ?_, ?_⟩
                      · rw [← hs, (executeStep_ok hx).1]
                      · rw [← hs]

/-- A successful Verify stage carries the Draft response through unchanged and
appends one user/assistant pair to the Draft session's history. -/
theorem afterVerify_ok {env : Env} {cfg : ProcessConfig} {t : Trace}
    {d v : String} {s : Session} {t' : Trace}
    (h : afterVerify env cfg t = (.ok (d, v, s), t')) :
    ∃ s3 t3, afterDraft env cfg t = (.ok (d, s3), t3) ∧
      s.conversationHistory = s3.conversationHistory ++
        [⟨.user, "User Request: " ++ cfg.userPrompt ++
            "\n\nContract Draft: " ++ d ++
            "\n\nUser Feedback: " ++ env.feedback3⟩,
          ⟨.assistant, v⟩] := by
  unfold afterVerify at h
  cases h3 : afterDraft env cfg t with
  | mk e3 t3 =>
      rw [h3] at h
      cases e3 with
      | error e => simp at h
      | ok p =>
          obtain ⟨r3, s3⟩ := p
          cases hl : loadPromptFile env.fs cfg.directory "verify.txt" with
          | error e => rw [hl] at h; simp at h
          | ok vp =>
              rw [hl] at h
              dsimp only at h
              cases hx : executeStep env.provider s3 vp
                  ("User Request: " ++ cfg.userPrompt ++
                    "\n\nContract Draft: " ++ r3 ++
                    "\n\nUser Feedback: " ++ env.feedback3) t3 with
              | mk e4 t4 =>
                  rw [hx] at h
                  cases e4 with
                  | error e => simp at h
                  | ok q =>
                      obtain ⟨vr, s4⟩ := q
                      simp only [Prod.mk.injEq, Except.ok.injEq] at h
                      obtain ⟨⟨hd, hv, hs⟩, ht⟩ := h
                      subst hd; subst hv; subst hs
                      exact ⟨s3, t3, rfl, by rw [(executeStep_ok hx).1]⟩

/-- A successful Explain stage carries the Draft and Verify responses through
unchanged and appends one user/assistant pair to the Verify session's
history. -/
theorem afterExplain_ok {env : Env} {cfg : ProcessConfig} {t : Trace}
    {d v : String} {s : Session} {t' : Trace}
    (h : afterExplain env cfg t = (.ok (d, v, s), t')) :
    ∃ s4 t4 er, afterVerify env cfg t = (.ok (d, v, s4), t4) ∧
      s.conversationHistory = s4.conversationHistory ++
        [⟨.user, "User Request: " ++ cfg.userPrompt ++
            "\n\nFinal Contract: " ++ d ++
            "\n\nVerification Notes: " ++ v ++
            "\n\nFinal Adjustments: " ++ env.feedback4⟩,
          ⟨.assistant, er⟩] := by
  unfold afterExplain at h
  cases h4 : afterVerify env cfg t with
  | mk e4 t4 =>
      rw [h4] at h
      cases e4 with
      | error e => simp at h
      | ok p =>
          obtain ⟨dr, vr, s4⟩ := p
          cases hl : loadPromptFile env.fs cfg.directory "explain.txt" with
          | error e => rw [hl] at h; simp at h
          | ok ep =>
              rw [hl] at h
              dsimp only at h
              cases hx : executeStep env.provider s4 ep
                  ("User Request: " ++ cfg.userPrompt ++
                    "\n\nFinal Contract: " ++ dr ++
                    "\n\nVerification Notes: " ++ vr ++
                    "\n\nFinal Adjustments: " ++ env.feedback4) t4 with
              | mk e5 t5 =>
                  rw [hx] at h
                  cases e5 with
                  | error e => simp at h
                  | ok q =>
                      obtain ⟨er, s5⟩ := q
                      simp only [Prod.mk.injEq, Except.ok.injEq] at h
                      obtain ⟨⟨hd, hv, hs⟩, ht⟩ := h
                      subst hd; subst hv; subst hs
                      exact ⟨s4, t4, er, rfl, by rw [(executeStep_ok hx).1]⟩

/-- Characterisation of a successful `generateFinalContract`: one request with
the synthesis system prompt, the accumulated history and the fixed user
message, at the default configuration. -/
theorem generateFinalContract_ok {provider : Provider} {s : Session}
    {d v ua ue : String} {t : Trace} {fc : String} {t' : Trace}
    (h : generateFinalContract provider s d v ua ue t = (.ok fc, t')) :
    t' = t ++ [⟨⟨.system, finalPrompt d v ua ue⟩ ::
        (s.conversationHistory ++
          [⟨.user, "Generate the final German freelance contract"⟩]),
        defaultModelConfig⟩] := by
  unfold generateFinalContract generateContractStep chatCompletion at h
  rw [resolveConfig_empty] at h
  cases hp : provider
      (⟨Role.system, finalPrompt d v ua ue⟩ ::
        (s.conversationHistory ++
          [⟨Role.user, "Generate the final German freelance contract"⟩]))
      defaultModelConfig with
  | success content => rw [hp] at h; simp_all
  | failure e => rw [hp] at h; simp at h

/-- Characterisation of a successful `processContract`: the Explain-stage
session gets its final-contract field set and nothing else changes; the trace
grows by exactly the synthesis request. -/
theorem processContract_ok {env : Env} {cfg : ProcessConfig} {t : Trace}
    {fc : String} {s : Session} {t' : Trace}
    (h : processContract env cfg t = (.ok (fc, s), t')) :
    ∃ d v s5 t5, afterExplain env cfg t = (.ok (d, v, s5), t5) ∧
      s = { s5 with finalContract := some fc } ∧
      t' = t5 ++ [⟨⟨.system, finalPrompt d v env.feedback4 env.feedback5⟩ ::
        (s5.conversationHistory ++
          [⟨.user, "Generate the final German freelance contract"⟩]),
        defaultModelConfig⟩] := by
  unfold processContract at h
  cases h5 : afterExplain env cfg t with
  | mk e5 t5 =>
      rw [h5] at h
      cases e5 with
      | error e => simp at h
      | ok p =>
          obtain ⟨dr, vr, s5⟩ := p
          dsimp only at h
          cases hg : generateFinalContract env.provider s5 dr vr
              env.feedback4 env.feedback5 t5 with
          | mk e6 t6 =>
              rw [hg] at h
              cases e6 with
              | error e => simp at h
              | ok fc6 =>
                  simp only [Prod.mk.injEq, Except.ok.injEq] at h
                  obtain ⟨⟨hfc, hs⟩, ht⟩ := h
                  subst hfc; subst hs; subst ht
                  exact ⟨dr, vr, s5, t5, rfl, rfl, generateFinalContract_ok hg⟩

/-- A template absent from the filesystem makes `loadPromptFile` fail with the
file-not-found error naming the full path. -/
theorem loadPromptFile_none {fs : FileSystem} {dir fn : String}
    (h : fs (pathJoin dir fn) = none) :
    loadPromptFile fs dir fn =
      .error ("Prompt file not found: " ++ pathJoin dir fn) := by
  unfold loadPromptFile
  rw [h]

/-- `executeStep` only adds default-configured requests. -/
theorem executeStep_allDefault {t : Trace} (provider : Provider) (s : Session)
    (sp um : String) (h : allDefaultConfig t) :
    allDefaultConfig (executeStep provider s sp um t).2 := by
  rw [executeStep_trace]
  intro req hreq
  rcases List.mem_append.mp hreq with hm | hm
  · exact h req hm
  · simp only [List.mem_singleton] at hm
    subst hm
    rfl

/-- The Intake stage only adds default-configured requests. -/
theorem afterIntake_allDefault {t : Trace} (env : Env) (cfg : ProcessConfig)
    (h : allDefaultConfig t) :
    allDefaultConfig (afterIntake env cfg t).2 := by
  unfold afterIntake
  cases loadPromptFile env.fs cfg.directory "intake.txt" with
  | error e => exact h
  | ok p => exact executeStep_allDefault env.provider (initialSession cfg) p cfg.userPrompt h

/-- The Confirm stage only adds default-configured requests. -/
theorem afterConfirm_allDefault {t : Trace} (env : Env) (cfg : ProcessConfig)
    (h : allDefaultConfig t) :
    allDefaultConfig (afterConfirm env cfg t).2 := by
  unfold afterConfirm
  cases h1 : afterIntake env cfg t with
  | mk e1 t1 =>
      have ht1 : allDefaultConfig t1 := by
        have h' := afterIntake_allDefault env cfg h (t := t)
        rw [h1] at h'
        exact h'
      cases e1 with
      | error e => exact ht1
      | ok p =>
          obtain ⟨r1, s1⟩ := p
          dsimp only
          cases loadPromptFile env.fs cfg.directory "confirm_specs.txt" with
          | error e => exact ht1
          | ok cp => exact executeStep_allDefault env.provider s1 cp _ ht1

/-- The Draft stage only adds default-configured requests. -/
theorem afterDraft_allDefault {t : Trace} (env : Env) (cfg : ProcessConfig)
    (h : allDefaultConfig t) :
    allDefaultConfig (afterDraft env cfg t).2 := by
  unfold afterDraft
  cases h2 : afterConfirm env cfg t with
  | mk e2 t2 =>
      have ht2 : allDefaultConfig t2 := by
        have h' := afterConfirm_allDefault env cfg h (t := t)
        rw [h2] at h'
        exact h'
      cases e2 with
      | error e => exact ht2
      | ok p =>
          obtain ⟨r2, s2⟩ := p
          dsimp only
          cases loadPromptFile env.fs cfg.directory "draft.txt" with
          | error e => exact ht2
          | ok dp =>
              dsimp only
              have hstep := executeStep_allDefault env.provider s2 dp ("User Request: " ++ cfg.userPrompt ++ "\n\nConfirmed Specifications: " ++ r2 ++ "\n\nUser Confirmation: " ++ env.feedback2) ht2
              cases hx : executeStep env.provider s2 dp ("User Request: " ++ cfg.userPrompt ++ "\n\nConfirmed Specifications: " ++ r2 ++ "\n\nUser Confirmation: " ++ env.feedback2) t2 with
              | mk e3 t3 =>
                  rw [hx] at hstep
                  cases e3 with
                  | error e => exact hstep
                  | ok q => obtain ⟨dr, s3⟩ := q; exact hstep

/-- The Verify stage only adds default-configured requests. -/
theorem afterVerify_allDefault {t : Trace} (env : Env) (cfg : ProcessConfig)
    (h : allDefaultConfig t) :
    allDefaultConfig (afterVerify env cfg t).2 := by
  unfold afterVerify
  cases h3 : afterDraft env cfg t with
  | mk e3 t3 =>
      have ht3 : allDefaultConfig t3 := by
        have h' := afterDraft_allDefault env cfg h (t := t)
        rw [h3] at h'
        exact h'
      cases e3 with
      | error e => exact ht3
      | ok p =>
          obtain ⟨r3, s3⟩ := p
          dsimp only
          cases loadPromptFile env.fs cfg.directory "verify.txt" with
          | error e => exact ht3
          | ok vp =>
              dsimp only
              have hstep := executeStep_allDefault env.provider s3 vp ("User Request: " ++ cfg.userPrompt ++ "\n\nContract Draft: " ++ r3 ++ "\n\nUser Feedback: " ++ env.feedback3) ht3
              cases hx : executeStep env.provider s3 vp ("User Request: " ++ cfg.userPrompt ++ "\n\nContract Draft: " ++ r3 ++ "\n\nUser Feedback: " ++ env.feedback3) t3 with
              | mk e4 t4 =>
                  rw [hx] at hstep
                  cases e4 with
                  | error e => exact hstep
                  | ok q => obtain ⟨vr, s4⟩ := q; exact hstep

/-- The Explain stage only adds default-configured requests. -/
theorem afterExplain_allDefault {t : Trace} (env : Env) (cfg : ProcessConfig)
    (h : allDefaultConfig t) :
    allDefaultConfig (afterExplain env cfg t).2 := by
  unfold afterExplain
  cases h4 : afterVerify env cfg t with
  | mk e4 t4 =>
      have ht4 : allDefaultConfig t4 := by
        have h' := afterVerify_allDefault env cfg h (t := t)
        rw [h4] at h'
        exact h'
      cases e4 with
      | error e => exact ht4
      | ok p =>
          obtain ⟨dr, vr, s4⟩ := p
          dsimp only
          cases loadPromptFile env.fs cfg.directory "explain.txt" with
          | error e => exact ht4
          | ok ep =>
              dsimp only
              have hstep := executeStep_allDefault env.provider s4 ep ("User Request: " ++ cfg.userPrompt ++ "\n\nFinal Contract: " ++ dr ++ "\n\nVerification Notes: " ++ vr ++ "\n\nFinal Adjustments: " ++ env.feedback4) ht4
              cases hx : executeStep env.provider s4 ep ("User Request: " ++ cfg.userPrompt ++ "\n\nFinal Contract: " ++ dr ++ "\n\nVerification Notes: " ++ vr ++ "\n\nFinal Adjustments: " ++ env.feedback4) t4 with
              | mk e5 t5 =>
                  rw [hx] at hstep
                  cases e5 with
                  | error e => exact hstep
                  | ok q => obtain ⟨er, s5⟩ := q; exact hstep

/-- The trace of any `generateFinalContract` call is the incoming trace plus
the one default-configured synthesis request. -/
theorem generateFinalContract_trace (provider : Provider) (s : Session)
    (d v ua ue : String) (t : Trace) :
    (generateFinalContract provider s d v ua ue t).2 =
      t ++ [⟨⟨.system, finalPrompt d v ua ue⟩ ::
        (s.conversationHistory ++
          [⟨.user, "Generate the final German freelance contract"⟩]),
        defaultModelConfig⟩] := by
  unfold generateFinalContract generateContractStep chatCompletion
  rw [resolveConfig_empty]
  cases provider
      (⟨Role.system, finalPrompt d v ua ue⟩ ::
        (s.conversationHistory ++
          [⟨Role.user, "Generate the final German freelance contract"⟩]))
      defaultModelConfig <;> rfl

/-- The whole pipeline only makes default-configured requests. -/
theorem processContract_allDefault {t : Trace} (env : Env)
    (cfg : ProcessConfig) (h : allDefaultConfig t) :
    allDefaultConfig (processContract env cfg t).2 := by
  unfold processContract
  cases h5 : afterExplain env cfg t with
  | mk e5 t5 =>
      have ht5 : allDefaultConfig t5 := by
        have := afterExplain_allDefault env cfg h
        rw [h5] at this
        exact this
      cases e5 with
      | error e => exact ht5
      | ok p =>
          obtain ⟨dr, vr, s5⟩ := p
          dsimp only
          have hg : allDefaultConfig (generateFinalContract env.provider s5 dr
              vr env.feedback4 env.feedback5 t5).2 := by
            rw [generateFinalContract_trace]
            intro req hreq
            rcases List.mem_append.mp hreq with hm | hm
            · exact ht5 req hm
            · simp only [List.mem_singleton] at hm
              subst hm
              rfl
          cases hx : generateFinalContract env.provider s5 dr vr env.feedback4
              env.feedback5 t5 with
          | mk e6 t6 =>
              rw [hx] at hg
              cases e6 with
              | error e => exact hg
              | ok fc => exact hg

/-- A successful Intake stage makes exactly one network call. -/
theorem afterIntake_ok_tlen {env : Env} {cfg : ProcessConfig} {t : Trace}
    {r : String} {s : Session} {t' : Trace}
    (h : afterIntake env cfg t = (.ok (r, s), t')) :
    t'.length = t.length + 1 := by
  unfold afterIntake at h
  cases hl : loadPromptFile env.fs cfg.directory "intake.txt" with
  | error e => rw [hl] at h; simp at h
  | ok p =>
      rw [hl] at h
      rw [(executeStep_ok h).2]
      simp

/-- A successful Confirm stage has made exactly two network calls. -/
theorem afterConfirm_ok_tlen {env : Env} {cfg : ProcessConfig} {t : Trace}
    {r : String} {s : Session} {t' : Trace}
    (h : afterConfirm env cfg t = (.ok (r, s), t')) :
    t'.length = t.length + 2 := by
  unfold afterConfirm at h
  cases h1 : afterIntake env cfg t with
  | mk e1 t1 =>
      rw [h1] at h
      cases e1 with
      | error e => simp at h
      | ok p =>
          obtain ⟨r1, s1⟩ := p
          dsimp only at h
          cases hl : loadPromptFile env.fs cfg.directory "confirm_specs.txt" with
          | error e => rw [hl] at h; simp at h
          | ok cp =>
              rw [hl] at h
              rw [(executeStep_ok h).2]
              have := afterIntake_ok_tlen h1
              simp [this]

/-- A successful Draft stage has made exactly three network calls. -/
theorem afterDraft_ok_tlen {env : Env} {cfg : ProcessConfig} {t : Trace}
    {r : String} {s : Session} {t' : Trace}
    (h : afterDraft env cfg t = (.ok (r, s), t')) :
    t'.length = t.length + 3 := by
  unfold afterDraft at h
  cases h2 : afterConfirm env cfg t with
  | mk e2 t2 =>
      rw [h2] at h
      cases e2 with
      | error e => simp at h
      | ok p =>
          obtain ⟨r2, s2⟩ := p
          dsimp only at h
          cases hl : loadPromptFile env.fs cfg.directory "draft.txt" with
          | error e => rw [hl] at h; simp at h
          | ok dp =>
              rw [hl] at h
              dsimp only at h
              cases hx : executeStep env.provider s2 dp ("User Request: " ++ cfg.userPrompt ++ "\n\nConfirmed Specifications: " ++ r2 ++ "\n\nUser Confirmation: " ++ env.feedback2) t2 with
              | mk e3 t3 =>
                  rw [hx] at h
                  cases e3 with
                  | error e => simp at h
                  | ok q =>
                      obtain ⟨dr, s3⟩ := q
                      simp only [Prod.mk.injEq, Except.ok.injEq] at h
                      obtain ⟨-, ht⟩ := h
                      subst ht
                      rw [(executeStep_ok hx).2]
                      have := afterConfirm_ok_tlen h2
                      simp [this]

/-- A successful Verify stage has made exactly four network calls. -/
theorem afterVerify_ok_tlen {env : Env} {cfg : ProcessConfig} {t : Trace}
    {d v : String} {s : Session} {t' : Trace}
    (h : afterVerify env cfg t = (.ok (d, v, s), t')) :
    t'.length = t.length + 4 := by
  unfold afterVerify at h
  cases h3 : afterDraft env cfg t with
  | mk e3 t3 =>
      rw [h3] at h
      cases e3 with
      | error e => simp at h
      | ok p =>
          obtain ⟨r3, s3⟩ := p
          dsimp only at h
          cases hl : loadPromptFile env.fs cfg.directory "verify.txt" with
          | error e => rw [hl] at h; simp at h
          | ok vp =>
              rw [hl] at h
              dsimp only at h
              cases hx : executeStep env.provider s3 vp ("User Request: " ++ cfg.userPrompt ++ "\n\nContract Draft: " ++ r3 ++ "\n\nUser Feedback: " ++ env.feedback3) t3 with
              | mk e4 t4 =>
                  rw [hx] at h
                  cases e4 with
                  | error e => simp at h
                  | ok q =>
                      obtain ⟨vr, s4⟩ := q
                      simp only [Prod.mk.injEq, Except.ok.injEq] at h
                      obtain ⟨-, ht⟩ := h
                      subst ht
                      rw [(executeStep_ok hx).2]
                      have := afterDraft_ok_tlen h3
                      simp [this]

/-- A successful Explain stage has made exactly five network calls. -/
theorem afterExplain_ok_tlen {env : Env} {cfg : ProcessConfig} {t : Trace}
    {d v : String} {s : Session} {t' : Trace}
    (h : afterExplain env cfg t = (.ok (d, v, s), t')) :
    t'.length = t.length + 5 := by
  unfold afterExplain at h
  cases h4 : afterVerify env cfg t with
  | mk e4 t4 =>
      rw [h4] at h
      cases e4 with
      | error e => simp at h
      | ok p =>
          obtain ⟨dr, vr, s4⟩ := p
          dsimp only at h
          cases hl : loadPromptFile env.fs cfg.directory "explain.txt" with
          | error e => rw [hl] at h; simp at h
          | ok ep =>
              rw [hl] at h
              dsimp only at h
              cases hx : executeStep env.provider s4 ep ("User Request: " ++ cfg.userPrompt ++ "\n\nFinal Contract: " ++ dr ++ "\n\nVerification Notes: " ++ vr ++ "\n\nFinal Adjustments: " ++ env.feedback4) t4 with
              | mk e5 t5 =>
                  rw [hx] at h
                  cases e5 with
                  | error e => simp at h
                  | ok q =>
                      obtain ⟨er, s5⟩ := q
                      simp only [Prod.mk.injEq, Except.ok.injEq] at h
                      obtain ⟨-, ht⟩ := h
                      subst ht
                      rw [(executeStep_ok hx).2]
                      have := afterVerify_ok_tlen h4
                      simp [this]

/-- A successful full run has made exactly six network calls: five stage calls
plus the synthesis call. -/
theorem processContract_ok_tlen {env : Env} {cfg : ProcessConfig} {t : Trace}
    {fc : String} {s : Session} {t' : Trace}
    (h : processContract env cfg t = (.ok (fc, s), t')) :
    t'.length = t.length + 6 := by
  obtain ⟨d, v, s5, t5, h5, -, ht⟩ := processContract_ok h
  subst ht
  have := afterExplain_ok_tlen h5
  simp [this]

/-- C1: every completed `executeStep` appends exactly two entries to the
session's conversation history — the user message then the assistant
response, in that order, at the end (so the prior history is never truncated
or reordered) — and after N completed stages (N = 1..5) the history length is
exactly 2N. -/
theorem history_grows_two_per_stage :
    (∀ (provider : Provider) (s : Session) (sp um : String) (t : Trace),
      isOkE (executeStep provider s sp um t).1 = true →
      (okSession (executeStep provider s sp um t).1).conversationHistory =
        s.conversationHistory ++
          [⟨.user, um⟩,
            ⟨.assistant, okStr (executeStep provider s sp um t).1⟩])
  ∧ (∀ env cfg, isOkE (afterIntake env cfg []).1 = true →
      (okSession (afterIntake env cfg []).1).conversationHistory.length = 2)
  ∧ (∀ env cfg, isOkE (afterConfirm env cfg []).1 = true →
      (okSession (afterConfirm env cfg []).1).conversationHistory.length = 4)
  ∧ (∀ env cfg, isOkE (afterDraft env cfg []).1 = true →
      (okSession (afterDraft env cfg []).1).conversationHistory.length = 6)
  ∧ (∀ env cfg, isOkE (afterVerify env cfg []).1 = true →
      (okSession3 (afterVerify env cfg []).1).conversationHistory.length = 8)
  ∧ (∀ env cfg, isOkE (afterExplain env cfg []).1 = true →
      (okSession3 (afterExplain env cfg []).1).conversationHistory.length
        = 10) := by
  refine ⟨?_, ?_, ?_, ?_, ?_, ?_⟩
  · intro provider s sp um t h
    cases hx : executeStep provider s sp um t with
    | mk e t' =>
        rw [hx] at h
        cases e with
        | error e => simp [isOkE] at h
        | ok p =>
            obtain ⟨r, s'⟩ := p
            dsimp only [okSession, okStr]
            rw [(executeStep_ok hx).1]
  · intro env cfg h
    cases hx : afterIntake env cfg [] with
    | mk e t' =>
        rw [hx] at h
        cases e with
        | error e => simp [isOkE] at h
        | ok p =>
            obtain ⟨r, s⟩ := p
            dsimp only [okSession]
            rw [afterIntake_ok hx]
            rfl
  · intro env cfg h
    cases hx : afterConfirm env cfg [] with
    | mk e t' =>
        rw [hx] at h
        cases e with
        | error e => simp [isOkE] at h
        | ok p =>
            obtain ⟨r, s⟩ := p
            dsimp only [okSession]
            obtain ⟨r1, s1, t1, h1, hh⟩ := afterConfirm_ok hx
            rw [hh, afterIntake_ok h1]
            rfl
  · intro env cfg h
    cases hx : afterDraft env cfg [] with
    | mk e t' =>
        rw [hx] at h
        cases e with
        | error e => simp [isOkE] at h
        | ok p =>
            obtain ⟨r, s⟩ := p
            dsimp only [okSession]
            obtain ⟨r2, s2, t2, h2, hh, -⟩ := afterDraft_ok hx
            obtain ⟨r1, s1, t1, h1, hh1⟩ := afterConfirm_ok h2
            rw [hh, hh1, afterIntake_ok h1]
            rfl
  · intro env cfg h
    cases hx : afterVerify env cfg [] with
    | mk e t' =>
        rw [hx] at h
        cases e with
        | error e => simp [isOkE] at h
        | ok p =>
            obtain ⟨d, v, s⟩ := p
            dsimp only [okSession3]
            obtain ⟨s3, t3, h3, hh3⟩ := afterVerify_ok hx
            obtain ⟨r2, s2, t2, h2, hh2, -⟩ := afterDraft_ok h3
            obtain ⟨r1, s1, t1, h1, hh1⟩ := afterConfirm_ok h2
            rw [hh3, hh2, hh1, afterIntake_ok h1]
            rfl
  · intro env cfg h
    cases hx : afterExplain env cfg [] with
    | mk e t' =>
        rw [hx] at h
        cases e with
        | error e => simp [isOkE] at h
        | ok p =>
            obtain ⟨d, v, s⟩ := p
            dsimp only [okSession3]
            obtain ⟨s4, t4, er, h4, hh4⟩ := afterExplain_ok hx
            obtain ⟨s3, t3, h3, hh3⟩ := afterVerify_ok h4
            obtain ⟨r2, s2, t2, h2, hh2, -⟩ := afterDraft_ok h3
            obtain ⟨r1, s1, t1, h1, hh1⟩ := afterConfirm_ok h2
            rw [hh4, hh3, hh2, hh1, afterIntake_ok h1]
            rfl

/-- Witness for C1 on the concrete test run: each stage of the pipeline
succeeds, and the history lengths 2, 4, 6, 8, 10 come out of the theorem
applied at the test environment. -/
theorem history_grows_two_per_stage_witness :
    ((okSession (executeStep testProvider (initialSession testCfg) "TPL" "P"
        []).1).conversationHistory =
      (initialSession testCfg).conversationHistory ++
        [⟨.user, "P"⟩, ⟨.assistant, okStr (executeStep testProvider
          (initialSession testCfg) "TPL" "P" []).1⟩])
  ∧ (okSession (afterIntake testEnv testCfg []).1).conversationHistory.length
      = 2
  ∧ (okSession (afterConfirm testEnv testCfg []).1).conversationHistory.length
      = 4
  ∧ (okSession (afterDraft testEnv testCfg []).1).conversationHistory.length
      = 6
  ∧ (okSession3 (afterVerify testEnv testCfg []).1).conversationHistory.length
      = 8
  ∧ (okSession3 (afterExplain testEnv testCfg
      []).1).conversationHistory.length = 10 :=
  ⟨history_grows_two_per_stage.1 testProvider (initialSession testCfg) "TPL"
      "P" [] rfl,
    history_grows_two_per_stage.2.1 testEnv testCfg rfl,
    history_grows_two_per_stage.2.2.1 testEnv testCfg rfl,
    history_grows_two_per_stage.2.2.2.1 testEnv testCfg rfl,
    history_grows_two_per_stage.2.2.2.2.1 testEnv testCfg rfl,
    history_grows_two_per_stage.2.2.2.2.2 testEnv testCfg rfl⟩

/-- C2 counterexample: a run in which one stage's template (verify.txt) is
absent does abort with the file-not-found error naming the path, but the
sequencer has already made three network calls by then — refuting the claim
that in every such run it fails before any network call is made. -/
theorem missing_template_cex :
    missingFs "verify.txt" (pathJoin "D" "verify.txt") = none ∧
    (processContract (missingEnv "verify.txt") testCfg []).1 =
      .error ("Prompt file not found: " ++ pathJoin "D" "verify.txt") ∧
    (processContract (missingEnv "verify.txt") testCfg []).2.length = 3 :=
  ⟨rfl, rfl, rfl⟩

/-- C2 amended: each stage loads its template before making its network call,
so a missing template makes `loadPromptFile` fail with a file-not-found error
naming the offending path and aborts the run at that stage without that
stage's network call (the trace is unchanged from the previously completed
stages); in particular a missing Intake template fails before any network
call at all, and a failed Explain stage reaches no synthesis call. -/
theorem missing_template_aborts :
    (∀ (fs : FileSystem) (dir fn : String), fs (pathJoin dir fn) = none →
      loadPromptFile fs dir fn =
        .error ("Prompt file not found: " ++ pathJoin dir fn))
  ∧ (∀ env cfg, env.fs (pathJoin cfg.directory "intake.txt") = none →
      afterIntake env cfg [] =
        (.error ("Prompt file not found: " ++
          pathJoin cfg.directory "intake.txt"), []))
  ∧ (∀ env cfg, env.fs (pathJoin cfg.directory "confirm_specs.txt") = none →
      isOkE (afterIntake env cfg []).1 = true →
      afterConfirm env cfg [] =
        (.error ("Prompt file not found: " ++
          pathJoin cfg.directory "confirm_specs.txt"),
          (afterIntake env cfg []).2))
  ∧ (∀ env cfg, env.fs (pathJoin cfg.directory "draft.txt") = none →
      isOkE (afterConfirm env cfg []).1 = true →
      afterDraft env cfg [] =
        (.error ("Prompt file not found: " ++
          pathJoin cfg.directory "draft.txt"),
          (afterConfirm env cfg []).2))
  ∧ (∀ env cfg, env.fs (pathJoin cfg.directory "verify.txt") = none →
      isOkE (afterDraft env cfg []).1 = true →
      afterVerify env cfg [] =
        (.error ("Prompt file not found: " ++
          pathJoin cfg.directory "verify.txt"),
          (afterDraft env cfg []).2))
  ∧ (∀ env cfg, env.fs (pathJoin cfg.directory "explain.txt") = none →
      isOkE (afterVerify env cfg []).1 = true →
      afterExplain env cfg [] =
        (.error ("Prompt file not found: " ++
          pathJoin cfg.directory "explain.txt"),
          (afterVerify env cfg []).2))
  ∧ (∀ env cfg e, (afterExplain env cfg []).1 = .error e →
      processContract env cfg [] = (.error e, (afterExplain env cfg []).2))
    := by
  refine ⟨?_, ?_, ?_, ?_, ?_, ?_, ?_⟩
  · intro fs dir fn h
    exact loadPromptFile_none h
  · intro env cfg h
    unfold afterIntake
    rw [loadPromptFile_none h]
  · intro env cfg h hk
    cases hx : afterIntake env cfg [] with
    | mk e1 t1 =>
        rw [hx] at hk
        cases e1 with
        | error e => simp [isOkE] at hk
        | ok p =>
            obtain ⟨r1, s1⟩ := p
            unfold afterConfirm
            rw [hx]
            dsimp only
            rw [loadPromptFile_none h]
  · intro env cfg h hk
    cases hx : afterConfirm env cfg [] with
    | mk e2 t2 =>
        rw [hx] at hk
        cases e2 with
        | error e => simp [isOkE] at hk
        | ok p =>
            obtain ⟨r2, s2⟩ := p
            unfold afterDraft
            rw [hx]
            dsimp only
            rw [loadPromptFile_none h]
  · intro env cfg h hk
    cases hx : afterDraft env cfg [] with
    | mk e3 t3 =>
        rw [hx] at hk
        cases e3 with
        | error e => simp [isOkE] at hk
        | ok p =>
            obtain ⟨r3, s3⟩ := p
            unfold afterVerify
            rw [hx]
            dsimp only
            rw [loadPromptFile_none h]
  · intro env cfg h hk
    cases hx : afterVerify env cfg [] with
    | mk e4 t4 =>
        rw [hx] at hk
        cases e4 with
        | error e => simp [isOkE] at hk
        | ok p =>
            obtain ⟨dr, vr, s4⟩ := p
            unfold afterExplain
            rw [hx]
            dsimp only
            rw [loadPromptFile_none h]
  · intro env cfg e h
    cases hx : afterExplain env cfg [] with
    | mk e5 t5 =>
        rw [hx] at h
        dsimp only at h
        subst h
        unfold processContract
        rw [hx]

/-- Witness for the amended C2 on concrete environments: one per clause, each
with its template really missing and the preceding stages really
succeeding. -/
theorem missing_template_aborts_witness :
    loadPromptFile (fun _ => none) "D" "intake.txt" =
      .error ("Prompt file not found: " ++ pathJoin "D" "intake.txt")
  ∧ afterIntake noFsEnv testCfg [] =
      (.error ("Prompt file not found: " ++ pathJoin "D" "intake.txt"), [])
  ∧ afterConfirm (missingEnv "confirm_specs.txt") testCfg [] =
      (.error ("Prompt file not found: " ++ pathJoin "D" "confirm_specs.txt"),
        (afterIntake (missingEnv "confirm_specs.txt") testCfg []).2)
  ∧ afterDraft (missingEnv "draft.txt") testCfg [] =
      (.error ("Prompt file not found: " ++ pathJoin "D" "draft.txt"),
        (afterConfirm (missingEnv "draft.txt") testCfg []).2)
  ∧ afterVerify (missingEnv "verify.txt") testCfg [] =
      (.error ("Prompt file not found: " ++ pathJoin "D" "verify.txt"),
        (afterDraft (missingEnv "verify.txt") testCfg []).2)
  ∧ afterExplain (missingEnv "explain.txt") testCfg [] =
      (.error ("Prompt file not found: " ++ pathJoin "D" "explain.txt"),
        (afterVerify (missingEnv "explain.txt") testCfg []).2)
  ∧ processContract (missingEnv "explain.txt") testCfg [] =
      (.error ("Prompt file not found: " ++ pathJoin "D" "explain.txt"),
        (afterExplain (missingEnv "explain.txt") testCfg []).2) :=
  ⟨missing_template_aborts.1 (fun _ => none) "D" "intake.txt" rfl,
    missing_template_aborts.2.1 noFsEnv testCfg rfl,
    missing_template_aborts.2.2.1 (missingEnv "confirm_specs.txt") testCfg
      rfl rfl,
    missing_template_aborts.2.2.2.1 (missingEnv "draft.txt") testCfg rfl rfl,
    missing_template_aborts.2.2.2.2.1 (missingEnv "verify.txt") testCfg
      rfl rfl,
    missing_template_aborts.2.2.2.2.2.1 (missingEnv "explain.txt") testCfg
      rfl rfl,
    missing_template_aborts.2.2.2.2.2.2 (missingEnv "explain.txt") testCfg
      ("Prompt file not found: " ++ pathJoin "D" "explain.txt") rfl⟩

/-- C3: in every run that reaches the Explain stage, the Explain call's user
message is exactly the labelled concatenation of the original user prompt,
the Draft stage's response (the same string the Draft stage returned — not
the Verify response), the Verify stage's response, and the post-Verify
feedback; being exactly that concatenation, it contains neither the
Confirm-stage feedback (feedback2) nor the Draft stage's own prior feedback
(feedback3) slot. -/
theorem explain_message_content :
    ∀ env cfg, isOkE (afterDraft env cfg []).1 = true →
      isOkE (afterVerify env cfg []).1 = true →
      isOkE (loadPromptFile env.fs cfg.directory "explain.txt") = true →
      okDraft (afterVerify env cfg []).1 = okStr (afterDraft env cfg []).1 ∧
      (afterExplain env cfg []).2 = (afterVerify env cfg []).2 ++
        [⟨⟨.system, okPrompt (loadPromptFile env.fs cfg.directory
              "explain.txt")⟩ ::
            ((okSession3 (afterVerify env cfg []).1).conversationHistory ++
              [⟨.user, "User Request: " ++ cfg.userPrompt ++
                "\n\nFinal Contract: " ++ okStr (afterDraft env cfg []).1 ++
                "\n\nVerification Notes: " ++
                  okVerify (afterVerify env cfg []).1 ++
                "\n\nFinal Adjustments: " ++ env.feedback4⟩]),
          defaultModelConfig⟩] := by
  intro env cfg h1 h2 h3
  cases hv : afterVerify env cfg [] with
  | mk e4 t4 =>
      rw [hv] at h2
      cases e4 with
      | error e => simp [isOkE] at h2
      | ok p =>
          obtain ⟨d, v, s4⟩ := p
          obtain ⟨s3, t3, hd, -⟩ := afterVerify_ok hv
          rw [hd]
          cases hl : loadPromptFile env.fs cfg.directory "explain.txt" with
          | error e => rw [hl] at h3; simp [isOkE] at h3
          | ok ep =>
              refine ⟨rfl, ?_⟩
              unfold afterExplain
              rw [hv, hl]
              dsimp only [okPrompt, okSession3, okStr, okVerify, okDraft]
              cases hx : executeStep env.provider s4 ep ("User Request: " ++ cfg.userPrompt ++ "\n\nFinal Contract: " ++ d ++ "\n\nVerification Notes: " ++ v ++ "\n\nFinal Adjustments: " ++ env.feedback4) t4 with
              | mk e5 t5 =>
                  have ht := executeStep_trace env.provider s4 ep ("User Request: " ++ cfg.userPrompt ++ "\n\nFinal Contract: " ++ d ++ "\n\nVerification Notes: " ++ v ++ "\n\nFinal Adjustments: " ++ env.feedback4) t4
                  rw [hx] at ht
                  cases e5 with
                  | error e => exact ht
                  | ok q => obtain ⟨er, s5⟩ := q; exact ht

/-- Witness for C3 on the concrete test run, in which Draft and Verify both
succeed and the Explain template is present. -/
theorem explain_message_content_witness :
    okDraft (afterVerify testEnv testCfg []).1 =
      okStr (afterDraft testEnv testCfg []).1 ∧
    (afterExplain testEnv testCfg []).2 = (afterVerify testEnv testCfg []).2 ++
      [⟨⟨.system, okPrompt (loadPromptFile testEnv.fs testCfg.directory
            "explain.txt")⟩ ::
          ((okSession3 (afterVerify testEnv testCfg
              []).1).conversationHistory ++
            [⟨.user, "User Request: " ++ testCfg.userPrompt ++
              "\n\nFinal Contract: " ++ okStr (afterDraft testEnv testCfg
                []).1 ++
              "\n\nVerification Notes: " ++
                okVerify (afterVerify testEnv testCfg []).1 ++
              "\n\nFinal Adjustments: " ++ testEnv.feedback4⟩]),
        defaultModelConfig⟩] :=
  explain_message_content testEnv testCfg rfl rfl rfl

/-- C5: `chatCompletion` returns the first choice's text (empty string when
the provider returns no content), and it throws exactly when the remote call
errors, the thrown error being the one wrapped provider error
`OpenAI API error: <original cause>` with no distinguishable kind. -/
theorem chatCompletion_spec :
    ∀ (provider : Provider) (msgs : List Message) (c : ConfigOverride)
      (t : Trace),
      (∀ content, provider msgs (resolveConfig c) = .success content →
        (chatCompletion provider msgs c t).1 = .ok (content.getD "")) ∧
      (∀ e, provider msgs (resolveConfig c) = .failure e →
        (chatCompletion provider msgs c t).1 =
          .error ("OpenAI API error: " ++ e)) ∧
      (isOkE (chatCompletion provider msgs c t).1 = false ↔
        (provider msgs (resolveConfig c)).isFailure = true) := by
  intro provider msgs c t
  refine ⟨?_, ?_, ?_⟩
  · intro content h
    unfold chatCompletion
    rw [h]
  · intro e h
    unfold chatCompletion
    rw [h]
  · unfold chatCompletion
    cases provider msgs (resolveConfig c) <;>
      simp [isOkE, ProviderResult.isFailure]

/-- Witness for C5: a succeeding and a failing provider at concrete
arguments. -/
theorem chatCompletion_spec_witness :
    (chatCompletion testProvider [] ⟨none, none, none⟩ []).1 =
      .ok ((some "RESP").getD "")
  ∧ (chatCompletion failProvider [] ⟨none, none, none⟩ []).1 =
      .error ("OpenAI API error: " ++ "boom")
  ∧ (isOkE (chatCompletion failProvider [] ⟨none, none, none⟩ []).1 = false ↔
      (failProvider [] (resolveConfig ⟨none, none, none⟩)).isFailure = true) :=
  ⟨(chatCompletion_spec testProvider [] ⟨none, none, none⟩ []).1 (some "RESP")
      rfl,
    (chatCompletion_spec failProvider [] ⟨none, none, none⟩ []).2.1 "boom" rfl,
    (chatCompletion_spec failProvider [] ⟨none, none, none⟩ []).2.2⟩

/-- C6: the synthesis call passes the accumulated conversation history to the
Chat Client (it is embedded in the one request `generateFinalContract`
makes), but the history is unchanged afterwards — the final session of a
successful run carries exactly the Explain-stage history — and the returned
text becomes the session's final contract. -/
theorem final_synthesis_frame :
    (∀ (provider : Provider) (s : Session) (d v ua ue : String) (t : Trace),
      (generateFinalContract provider s d v ua ue t).2 = t ++
        [⟨⟨.system, finalPrompt d v ua ue⟩ :: (s.conversationHistory ++
          [⟨.user, "Generate the final German freelance contract"⟩]),
          defaultModelConfig⟩])
  ∧ (∀ env cfg, isOkE (processContract env cfg []).1 = true →
      isOkE (afterExplain env cfg []).1 = true ∧
      (okSession (processContract env cfg []).1).conversationHistory =
        (okSession3 (afterExplain env cfg []).1).conversationHistory ∧
      (okSession (processContract env cfg []).1).finalContract =
        some (okStr (processContract env cfg []).1)) := by
  refine ⟨generateFinalContract_trace, ?_⟩
  intro env cfg h
  cases hp : processContract env cfg [] with
  | mk e t' =>
      rw [hp] at h
      cases e with
      | error e => simp [isOkE] at h
      | ok p =>
          obtain ⟨fc, s⟩ := p
          obtain ⟨d, v, s5, t5, he, hs, -⟩ := processContract_ok hp
          rw [he]
          subst hs
          exact ⟨rfl, rfl, rfl⟩

/-- Witness for C6: the synthesis request on a concrete session, and the
frame facts on the successful concrete test run. -/
theorem final_synthesis_frame_witness :
    ((generateFinalContract testProvider defaultSession "D" "V" "A" "E"
        []).2 =
      ([] : Trace) ++
        [⟨⟨.system, finalPrompt "D" "V" "A" "E"⟩ ::
          (defaultSession.conversationHistory ++
            [⟨.user, "Generate the final German freelance contract"⟩]),
          defaultModelConfig⟩])
  ∧ (isOkE (afterExplain testEnv testCfg []).1 = true ∧
      (okSession (processContract testEnv testCfg
          []).1).conversationHistory =
        (okSession3 (afterExplain testEnv testCfg
          []).1).conversationHistory ∧
      (okSession (processContract testEnv testCfg []).1).finalContract =
        some (okStr (processContract testEnv testCfg []).1)) := by
  constructor
  · exact final_synthesis_frame.1 testProvider defaultSession "D" "V" "A" "E"
      []
  · exact final_synthesis_frame.2 testEnv testCfg rfl

/-- C7: `generateContractStep` sends to the provider exactly the list
`[system message] ++ history ++ [new user message]`, in that order, and
returns the resulting completion. -/
theorem generateContractStep_spec :
    ∀ (provider : Provider) (sp um : String) (hist : List Message)
      (t : Trace),
      (generateContractStep provider sp um hist t).2 =
        t ++ [⟨⟨.system, sp⟩ :: (hist ++ [⟨.user, um⟩]),
          defaultModelConfig⟩] ∧
      (∀ content, provider (⟨.system, sp⟩ :: (hist ++ [⟨.user, um⟩]))
          defaultModelConfig = .success content →
        (generateContractStep provider sp um hist t).1 =
          .ok (content.getD "")) ∧
      (∀ e, provider (⟨.system, sp⟩ :: (hist ++ [⟨.user, um⟩]))
          defaultModelConfig = .failure e →
        (generateContractStep provider sp um hist t).1 =
          .error ("OpenAI API error: " ++ e)) := by
  intro provider sp um hist t
  refine ⟨?_, ?_, ?_⟩
  · unfold generateContractStep chatCompletion
    rw [resolveConfig_empty]
    cases provider (⟨Role.system, sp⟩ :: (hist ++ [⟨Role.user, um⟩]))
        defaultModelConfig <;> rfl
  · intro content h
    unfold generateContractStep chatCompletion
    rw [resolveConfig_empty, h]
  · intro e h
    unfold generateContractStep chatCompletion
    rw [resolveConfig_empty, h]

/-- Witness for C7 at concrete arguments, with a succeeding and a failing
provider. -/
theorem generateContractStep_spec_witness :
    (generateContractStep testProvider "SP" "UM" [] []).2 =
      ([] : Trace) ++ [⟨⟨.system, "SP"⟩ :: (([] : List Message) ++
        [⟨.user, "UM"⟩]), defaultModelConfig⟩]
  ∧ (generateContractStep testProvider "SP" "UM" [] []).1 =
      .ok ((some "RESP").getD "")
  ∧ (generateContractStep failProvider "SP" "UM" [] []).1 =
      .error ("OpenAI API error: " ++ "boom") :=
  ⟨(generateContractStep_spec testProvider "SP" "UM" [] []).1,
    (generateContractStep_spec testProvider "SP" "UM" [] []).2.1 (some "RESP")
      rfl,
    (generateContractStep_spec failProvider "SP" "UM" [] []).2.2 "boom" rfl⟩

/-- C8 counterexample: supplying the `--api-key` flag with an empty value
while the environment variable is set — the environment key, not the supplied
flag value, is used (the source's `if (!apiKey)` treats the empty string as
falsy), refuting "whenever a --api-key flag value is supplied it is the key
used" and "the environment variable is used only when no flag is given". -/
theorem api_key_flag_cex :
    resolveApiKey (some "") (some "ENVKEY") "PROMPTED" = "ENVKEY" ∧
    ("ENVKEY" : String) ≠ "" := by
  constructor
  · rfl
  · decide

/-- C8 amended: resolution order is flag, then environment, then interactive
prompt, where a supplied flag value wins only when non-empty (an empty flag
value falls through, as does an environment value that is unset or blank
after trimming); the prompt's answer is used exactly when neither yields a
key. -/
theorem api_key_resolution :
    (∀ (k : String) (env : Option String) (p : String), k ≠ "" →
      resolveApiKey (some k) env p = k)
  ∧ (∀ (flag env : Option String) (p : String), flag.getD "" = "" →
      strTrim (env.getD "") ≠ "" → resolveApiKey flag env p = env.getD "")
  ∧ (∀ (flag env : Option String) (p : String), flag.getD "" = "" →
      strTrim (env.getD "") = "" → resolveApiKey flag env p = p) := by
  refine ⟨?_, ?_, ?_⟩
  · intro k env p h
    unfold resolveApiKey
    simp [h]
  · intro flag env p h1 h2
    unfold resolveApiKey
    simp [h1, h2]
  · intro flag env p h1 h2
    unfold resolveApiKey
    simp [h1, h2]

/-- Witness for the amended C8: a non-empty flag beats a set environment
variable; an empty flag falls through to the environment; with an empty flag
and a blank environment value the prompt's answer is used. -/
theorem api_key_resolution_witness :
    (("FLAGKEY" : String) ≠ "" ∧
      resolveApiKey (some "FLAGKEY") (some "ENVKEY") "PROMPTED" = "FLAGKEY")
  ∧ (((some "" : Option String).getD "" = "" ∧
      (strTrim ((some "ENVKEY" : Option String).getD "") ≠ "")) ∧
      resolveApiKey (some "") (some "ENVKEY") "PROMPTED" =
        (some "ENVKEY" : Option String).getD "")
  ∧ (((none : Option String).getD "" = "" ∧
      (strTrim ((some "   " : Option String).getD "") = "")) ∧
      resolveApiKey none (some "   ") "PROMPTED" = "PROMPTED") :=
  ⟨⟨by decide,
      api_key_resolution.1 "FLAGKEY" (some "ENVKEY") "PROMPTED" (by decide)⟩,
    ⟨⟨rfl, by decide⟩,
      api_key_resolution.2.1 (some "") (some "ENVKEY") "PROMPTED" rfl
        (by decide)⟩,
    ⟨⟨rfl, by decide⟩,
      api_key_resolution.2.2 none (some "   ") "PROMPTED" rfl (by decide)⟩⟩

/-- C9: every generation call of a run goes through `generateContractStep`,
which forwards no configuration override, so every request on the run's trace
carries exactly the defaults — model "gpt-4", temperature 0.7, max tokens
4000 — and a completed run makes exactly six such calls (five stages plus the
synthesis). -/
theorem all_requests_use_defaults :
    ∀ env cfg, allDefaultConfig (processContract env cfg []).2 ∧
      (isOkE (processContract env cfg []).1 = true →
        (processContract env cfg []).2.length = 6) := by
  intro env cfg
  constructor
  · refine processContract_allDefault env cfg ?_
    intro req h
    simp at h
  · intro h
    cases hp : processContract env cfg [] with
    | mk e t' =>
        rw [hp] at h
        cases e with
        | error e => simp [isOkE] at h
        | ok p =>
            obtain ⟨fc, s⟩ := p
            have := processContract_ok_tlen hp
            simpa using this

/-- Witness for C9 on the successful concrete test run. -/
theorem all_requests_use_defaults_witness :
    allDefaultConfig (processContract testEnv testCfg []).2 ∧
    (processContract testEnv testCfg []).2.length = 6 :=
  ⟨(all_requests_use_defaults testEnv testCfg).1,
    (all_requests_use_defaults testEnv testCfg).2 rfl⟩

/-- C10: the project-description validator (identical in the generate and
interactive subcommands) accepts exactly the inputs whose trimmed length is
at least 10, and the re-prompt loop around it only ever returns, unmodified,
one of the submitted inputs with trimmed length at least 10. -/
theorem description_min_length :
    (∀ s, descriptionValidate s = true ↔ 10 ≤ (strTrim s).length)
  ∧ (∀ (inputs : List String) (s : String),
      promptUntilValid descriptionValidate inputs = some s →
      10 ≤ (strTrim s).length ∧ s ∈ inputs) := by
  have hval : ∀ s, descriptionValidate s = true ↔ 10 ≤ (strTrim s).length := by
    intro s
    unfold descriptionValidate
    by_cases h : (strTrim s).length < 10
    · simp [h]
      try omega
    · simp [h]
      try omega
  refine ⟨hval, ?_⟩
  intro inputs
  induction inputs with
  | nil =>
      intro s h
      simp [promptUntilValid] at h
  | cons i rest ih =>
      intro s h
      unfold promptUntilValid at h
      by_cases hv : descriptionValidate i = true
      · rw [if_pos hv] at h
        have his : i = s := by injection h
        subst his
        exact ⟨(hval i).mp hv, List.mem_cons_self i rest⟩
      · rw [if_neg hv] at h
        obtain ⟨h1, h2⟩ := ih s h
        exact ⟨h1, List.mem_cons_of_mem i h2⟩

/-- Witness for C10: a too-short first input is rejected and the loop returns
the second, sufficiently long one. -/
theorem description_min_length_witness :
    (descriptionValidate "a Berlin startup web project" = true ↔
      10 ≤ (strTrim "a Berlin startup web project").length)
  ∧ (10 ≤ (strTrim "a Berlin startup web project").length ∧
      "a Berlin startup web project" ∈
        ["short", "a Berlin startup web project"]) :=
  ⟨description_min_length.1 "a Berlin startup web project",
    description_min_length.2 ["short", "a Berlin startup web project"]
      "a Berlin startup web project" rfl⟩

end Maik
